import Mathlib

/-!
Verification of `obspy/signal/array_analysis.py` (seismic array beamforming).

The Python source is embedded shallowly: floating-point arithmetic is modelled
by exact real arithmetic (ℝ), Python `int()` / `%` get explicit definitions
with Python's truncation/floored-division semantics, numpy arrays become lists
or index functions, and fallible code returns `Except`.
-/

namespace ObspyArray

/-- Python float modulo `x % b`: floored-division remainder, sign of `b`.
Used by the source as `azimut % -360`. -/
noncomputable def pymod (x b : ℝ) : ℝ := x - b * ⌊x / b⌋

/-- Python `int()` applied to a float: truncation toward zero. -/
noncomputable def pyint (x : ℝ) : ℤ := if 0 ≤ x then ⌊x⌋ else -⌊-x⌋

/-- C/Python `math.atan2 y x`: the angle of the point `(x, y)` in `(-π, π]`. -/
noncomputable def atan2 (y x : ℝ) : ℝ :=
  if 0 < x then Real.arctan (y / x)
  else if x < 0 then
    (if 0 ≤ y then Real.arctan (y / x) + Real.pi else Real.arctan (y / x) - Real.pi)
  else if 0 < y then Real.pi / 2
  else if y < 0 then -(Real.pi / 2)
  else 0

/-- Backazimuth as computed by `array_processing` (array_analysis.py lines
2012–2013) and `beamforming` (lines 2277–2278):
`azimut = 180 * math.atan2(slow_x, slow_y) / math.pi; baz = azimut % -360 + 180`. -/
noncomputable def baz (slow_x slow_y : ℝ) : ℝ :=
  pymod (180 * atan2 slow_x slow_y / Real.pi) (-360) + 180

/-- Grid points per slowness axis, `array_processing` lines 1910–1911 and
`beamforming` lines 2115–2116: `int(((slm - sll) / sl_s + 0.5) + 1)`. -/
noncomputable def grdpts (sll slm sl_s : ℝ) : ℤ :=
  pyint ((slm - sll) / sl_s + 0.5 + 1)

/-- Entry `[i][k][l]` of the time-shift table (`get_timeshift`, array_analysis.py
lines 321–363) for station `i` of `geometry` (rows `(x, y, z)` in km) and grid
point `(k, l)`.  The `static_3D` branch adds the elevation correction
`z * cos(inc) / vel_cor`, `inc = asin(vel_cor * slow)` when
`vel_cor * slow ≤ 1` and `π/2` otherwise; the default branch is the planar
delay `x * (sll_x + k*sl_s) + y * (sll_y + l*sl_s)`. -/
noncomputable def get_timeshift (geometry : List (ℝ × ℝ × ℝ))
    (sll_x sll_y sl_s vel_cor : ℝ) (static_3D : Bool) (i k l : ℕ) : ℝ :=
  let g := geometry.getD i (0, 0, 0)
  let sx := sll_x + k * sl_s
  let sy := sll_y + l * sl_s
  if static_3D then
    let slow := Real.sqrt (sx * sx + sy * sy)
    let inc := if vel_cor * slow ≤ 1 then Real.arcsin (vel_cor * slow)
      else Real.pi / 2
    sx * g.1 + sy * g.2.1 + g.2.2 * Real.cos inc / vel_cor
  else
    g.1 * sx + g.2.1 * sy

/-- Value of `time_shift_table` visible while window `w` (0-based) of the
`beamforming` while-loop body runs (lines 2160–2287): methods `DLS` and `PWS`
only read the table, while the `SWP` branch executes
`time_shift_table *= -1.` (line 2234) inside the loop, negating the shared
table in place before each window uses it. -/
noncomputable def tableUsed (method : String) (tbl : ℕ → ℕ → ℕ → ℝ) :
    ℕ → ℕ → ℕ → ℕ → ℝ
  | 0, i, k, l => if method = "SWP" then -tbl i k l else tbl i k l
  | w + 1, i, k, l =>
      if method = "SWP" then -tableUsed method tbl w i k l
      else tableUsed method tbl w i k l

/-- DLS/PWS per-station shifted-window extraction of `beamforming`
(lines 2170–2175 and 2199–2204): the slice
`stream[i].data[s + offset : s + nsamp + offset]` followed, when short, by
`np.pad(shifted, (0, nsamp - len(shifted)), constant, constant_values=(0, 1))`;
`constant_values=(0, 1)` makes numpy pad the end with the constant `1`. -/
def extract_padded (data : List ℝ) (s nsamp : ℕ) : List ℝ :=
  let shifted := (data.drop s).take nsamp
  if shifted.length < nsamp then
    shifted ++ List.replicate (nsamp - shifted.length) 1
  else shifted

/-- Slowness magnitude at a grid point, floored at `1e-8`
(`array_processing` lines 2009–2011, `beamforming` lines 2274–2276):
`slow = sqrt(slow_x ** 2 + slow_y ** 2); if slow < 1e-8: slow = 1e-8`. -/
noncomputable def slow_floor (slow_x slow_y : ℝ) : ℝ :=
  let slow := Real.sqrt (slow_x ^ 2 + slow_y ^ 2)
  if slow < 1e-8 then 1e-8 else slow

/-- Output of one sliding window of the `array_processing` loop
(lines 1964–2003): window start timestamp `t`, the maximal relative and
absolute powers of the maps filled by the external C kernel
`clibsignal.generalizedBeamformer`, and the argmax grid indices `(ix, iy)`
from `np.unravel_index(relpow_map.argmax(), ...)`.  The FFT and the C kernel
are external code; their per-window output enters the model through this
structure. -/
structure WindowOut where
  t : ℝ
  relpow : ℝ
  abspow : ℝ
  ix : ℕ
  iy : ℕ

/-- Result row appended by `array_processing` (line 2015):
`np.array([newstart.timestamp, relpow, abspow, baz, slow])`. -/
structure FKRecord where
  timestamp : ℝ
  relpow : ℝ
  abspow : ℝ
  baz : ℝ
  slow : ℝ

/-- The row `array_processing` builds for one window (lines 2005–2016), with
`slow_x = sll_x + ix * sl_s` and `slow_y = sll_y + iy * sl_s`. -/
noncomputable def window_record (sll_x sll_y sl_s : ℝ) (w : WindowOut) :
    FKRecord :=
  ⟨w.t, w.relpow, w.abspow,
    baz (sll_x + w.ix * sl_s) (sll_y + w.iy * sl_s),
    slow_floor (sll_x + w.ix * sl_s) (sll_y + w.iy * sl_s)⟩

/-- Emission test of `array_processing` (line 2014):
`relpow > semb_thres and 1. / slow > vel_thres`. -/
noncomputable def window_pass (sll_x sll_y sl_s semb_thres vel_thres : ℝ)
    (w : WindowOut) : Prop :=
  w.relpow > semb_thres ∧
    1 / slow_floor (sll_x + w.ix * sl_s) (sll_y + w.iy * sl_s) > vel_thres

open Classical in
/-- The result list `res` built by the sliding-window loop of
`array_processing` (lines 1964–2023): a row is appended exactly when the
window passes the threshold test; a failing window appends nothing, raises
nothing, and the loop continues with the remaining windows. -/
noncomputable def res_table (sll_x sll_y sl_s semb_thres vel_thres : ℝ) :
    List WindowOut → List FKRecord
  | [] => []
  | w :: ws =>
      if window_pass sll_x sll_y sl_s semb_thres vel_thres w then
        window_record sll_x sll_y sl_s w ::
          res_table sll_x sll_y sl_s semb_thres vel_thres ws
      else res_table sll_x sll_y sl_s semb_thres vel_thres ws

/-- Timestamp post-processing shared by `array_processing` (lines 2024–2032)
and `beamforming` (lines 2288–2296); `set_t` applies a function to the
timestamp column (`res[:, 0]`) of one row.  With `timestamp` equal to
`mlabday`, on an empty table `np.array(res)` is one-dimensional so
`res[:, 0]` raises `IndexError`; on a non-empty table column 0 becomes
`t / (24. * 3600) + 719162`.  Any other `timestamp` raises `ValueError`. -/
noncomputable def timestamp_convert {α : Type} (set_t : (ℝ → ℝ) → α → α) (timestamp : String)
    (res : List α) : Except String (List α) :=
  if timestamp = "julsec" then .ok res
  else if timestamp = "mlabday" then
    if res.isEmpty then .error "IndexError: too many indices for array"
    else .ok (res.map (set_t (fun t => t / (24 * 3600) + 719162)))
  else .error "Option timestamp must be one of julsec or mlabday"

/-- Sampling-rate consistency check of `array_processing` (lines 1903–1908)
and `beamforming` (lines 2106–2111): with
`fs = stream[0].stats.sampling_rate`, the stream is rejected when
`len(stream) != len(stream.select(sampling_rate=fs))`.  Sampling rates are
floats, hence exact rationals. -/
def sampling_rates_equal (rates : List ℚ) : Bool :=
  rates.length = (rates.filter (fun r => r = rates.headD 0)).length

/-- `array_processing` (lines 1835–2033) modelled end to end: the
sampling-rate configuration check, then the sliding-window result table, then
timestamp conversion.  The per-window kernel outputs enter through
`windows`. -/
noncomputable def array_processing (rates : List ℚ)
    (sll_x sll_y sl_s semb_thres vel_thres : ℝ) (timestamp : String)
    (windows : List WindowOut) : Except String (List FKRecord) :=
  if sampling_rates_equal rates then
    timestamp_convert (fun f r => { r with timestamp := f r.timestamp })
      timestamp (res_table sll_x sll_y sl_s semb_thres vel_thres windows)
  else
    .error "in array-processing sampling rates of traces in stream are not equal"

/-- Output of one window of the `beamforming` loop (lines 2160–2268): window
start timestamp, maximal absolute power of `abspow_map` and its argmax grid
indices. -/
structure BFWindowOut where
  t : ℝ
  abspow : ℝ
  ix : ℕ
  iy : ℕ

/-- Result row appended by `beamforming` (lines 2279–2280):
`np.array([newstart.timestamp, abspow, baz, slow_x, slow_y, slow])`. -/
structure BFRecord where
  timestamp : ℝ
  abspow : ℝ
  baz : ℝ
  slow_x : ℝ
  slow_y : ℝ
  slow : ℝ

/-- The row `beamforming` builds for one window (lines 2270–2280); every
window appends a row (no threshold test in `beamforming`). -/
noncomputable def bf_window_record (sll_x sll_y sl_s : ℝ) (w : BFWindowOut) :
    BFRecord :=
  ⟨w.t, w.abspow, baz (sll_x + w.ix * sl_s) (sll_y + w.iy * sl_s),
    sll_x + w.ix * sl_s, sll_y + w.iy * sl_s,
    slow_floor (sll_x + w.ix * sl_s) (sll_y + w.iy * sl_s)⟩

/-- `beamforming` (lines 2036–2297) modelled end to end: the sampling-rate
check, one row per window, then timestamp conversion. -/
noncomputable def beamforming (rates : List ℚ) (sll_x sll_y sl_s : ℝ)
    (timestamp : String) (windows : List BFWindowOut) :
    Except String (List BFRecord) :=
  if sampling_rates_equal rates then
    timestamp_convert (fun f r => { r with timestamp := f r.timestamp })
      timestamp (windows.map (bf_window_record sll_x sll_y sl_s))
  else
    .error "in sonic sampling rates of traces in stream are not equal"

/-- The `xy` branch of `get_geometry` (lines 1633–1636) with
`correct_3dplane=False`: componentwise subtraction of the centroid from the
station coordinate rows `(x, y, z)`. -/
noncomputable def get_geometry_xy (coords : List (ℝ × ℝ × ℝ)) :
    List (ℝ × ℝ × ℝ) :=
  let mx := (coords.map fun c => c.1).sum / coords.length
  let my := (coords.map fun c => c.2.1).sum / coords.length
  let mz := (coords.map fun c => c.2.2).sum / coords.length
  coords.map fun c => (c.1 - mx, c.2.1 - my, c.2.2 - mz)

/-- `np.arange(start, stop, step)` for positive `step`: the
`⌈(stop - start)/step⌉` values `start + i * step`. -/
noncomputable def np_arange (start stop step : ℝ) : List ℝ :=
  (List.range (Int.ceil ((stop - start) / step)).toNat).map
    fun i => start + i * step

/-- numpy `.max()` of a 2D array: the greatest entry.  The source only calls
it on non-empty arrays; the model returns 0 on an empty one. -/
noncomputable def np_max (xss : List (List ℝ)) : ℝ :=
  xss.flatten.tail.foldl max (xss.flatten.headD 0)

/-- One entry of the unnormalized wavenumber transfer function
(`array_transff_wavenumber`, lines 1753–1759):
`abs(sum_k exp(complex(0, coords[k,0]*kx + coords[k,1]*ky))) ** 2` over the
centred geometry. -/
noncomputable def transff_k_entry (geometry : List (ℝ × ℝ × ℝ))
    (kx ky : ℝ) : ℝ :=
  Complex.abs ((geometry.map fun c =>
    Complex.exp (((c.1 * kx + c.2.1 * ky : ℝ) : ℂ) * Complex.I)).sum) ^ 2

/-- The unnormalized 2D array accumulated by `array_transff_wavenumber`
(lines 1748–1759) over the per-axis grids
`np.arange(kmin, kmax + kstep/10, kstep)`. -/
noncomputable def transff_wavenumber_raw (coords : List (ℝ × ℝ × ℝ))
    (kxmin kxmax kymin kymax kstep : ℝ) : List (List ℝ) :=
  let geometry := get_geometry_xy coords
  (np_arange kxmin (kxmax + kstep / 10) kstep).map fun kx =>
    (np_arange kymin (kymax + kstep / 10) kstep).map fun ky =>
      transff_k_entry geometry kx ky

/-- `array_transff_wavenumber` (lines 1720–1762) with `coordsys=xy`: the
accumulated array followed by the normalization `transff /= transff.max()`
(line 1761). -/
noncomputable def array_transff_wavenumber (coords : List (ℝ × ℝ × ℝ))
    (kxmin kxmax kymin kymax kstep : ℝ) : List (List ℝ) :=
  let transff := transff_wavenumber_raw coords kxmin kxmax kymin kymax kstep
  transff.map (List.map fun v => v / np_max transff)

/-- Last entry of `scipy.integrate.cumtrapz(ys, dx=dx)`: the full trapezoid
integral `sum_k (ys[k] + ys[k+1]) / 2 * dx`.  The source indexes `[-1]`,
which raises on fewer than two samples; the model returns 0 there. -/
noncomputable def cumtrapz_last (ys : List ℝ) (dx : ℝ) : ℝ :=
  ((ys.zip ys.tail).map fun p => (p.1 + p.2) / 2 * dx).sum

/-- One entry of the unnormalized slowness/frequency transfer function
(`array_transff_freqslowness`, lines 1811–1820): the trapezoid integral over
the frequency grid of
`abs(sum_l exp(complex(0, (x_l*sx + y_l*sy)*2*pi*f))) ** 2`. -/
noncomputable def transff_fs_entry (geometry : List (ℝ × ℝ × ℝ))
    (sx sy fmin fmax fstep : ℝ) : ℝ :=
  cumtrapz_last ((np_arange fmin (fmax + fstep / 10) fstep).map fun f =>
    Complex.abs ((geometry.map fun c =>
      Complex.exp ((((c.1 * sx + c.2.1 * sy) * 2 * Real.pi * f : ℝ) : ℂ) *
        Complex.I)).sum) ^ 2) fstep

/-- The unnormalized 2D array accumulated by `array_transff_freqslowness`
(lines 1804–1820). -/
noncomputable def transff_freqslowness_raw (coords : List (ℝ × ℝ × ℝ))
    (sxmin sxmax symin symax sstep fmin fmax fstep : ℝ) : List (List ℝ) :=
  let geometry := get_geometry_xy coords
  (np_arange sxmin (sxmax + sstep / 10) sstep).map fun sx =>
    (np_arange symin (symax + sstep / 10) sstep).map fun sy =>
      transff_fs_entry geometry sx sy fmin fmax fstep

/-- `array_transff_freqslowness` (lines 1765–1823) with `coordsys=xy`: the
accumulated array followed by `transff /= transff.max()` (line 1822). -/
noncomputable def array_transff_freqslowness (coords : List (ℝ × ℝ × ℝ))
    (sxmin sxmax symin symax sstep fmin fmax fstep : ℝ) : List (List ℝ) :=
  let transff :=
    transff_freqslowness_raw coords sxmin sxmax symin symax sstep fmin fmax fstep
  transff.map (List.map fun v => v / np_max transff)

/-- Station-count validation of `array_rotation_strain` (lines 1229–1237):
with `n_plus_1 = subarray.size`, fewer than 3 stations raises `ValueError`,
exactly 3 emits a warning and proceeds, 4 or more proceeds silently.  The
returned list carries the emitted warnings. -/
def subarray_station_check (n_plus_1 : ℕ) : Except String (List String) :=
  if n_plus_1 < 3 then
    .error "The problem is underdetermined for fewer than 3 stations"
  else if n_plus_1 = 3 then
    .ok ["For a 3-station array the problem is even-determined"]
  else
    .ok []

end ObspyArray

namespace ObspyArray

theorem pymod_bounds_of_neg (x b : ℝ) (hb : b < 0) :
    b < pymod x b ∧ pymod x b ≤ 0 := by
  have hbne : b ≠ 0 := ne_of_lt hb
  have hx : b * (x / b) = x := by field_simp
  have h1 : (⌊x / b⌋ : ℝ) ≤ x / b := Int.floor_le _
  have h2 : x / b < ⌊x / b⌋ + 1 := Int.lt_floor_add_one _
  have hm1 : b * ((⌊x / b⌋ : ℝ) + 1) < b * (x / b) :=
    mul_lt_mul_of_neg_left h2 hb
  have hm2 : b * (x / b) ≤ b * (⌊x / b⌋ : ℝ) :=
    mul_le_mul_of_nonpos_left h1 (le_of_lt hb)
  constructor
  · unfold pymod
    nlinarith
  · unfold pymod
    nlinarith

/-- C1 (counterexample): at grid slowness `(slow_x, slow_y) = (1, 0)` the code
computes backazimuth `-90`, which does not lie in `[0, 360)`; the claimed
range for the formula `((180·atan2(sx,sy)/π) mod -360) + 180` is wrong. -/
theorem baz_not_in_Ico_counterexample :
    ¬((1 : ℝ) = 0 ∧ (0 : ℝ) = 0) ∧ baz 1 0 = -90 ∧
      ¬(0 ≤ baz 1 0 ∧ baz 1 0 < 360) := by
  have hpi : Real.pi ≠ 0 := Real.pi_ne_zero
  have hatan : atan2 1 0 = Real.pi / 2 := by
    unfold atan2
    norm_num
  have hazi : 180 * atan2 1 0 / Real.pi = 90 := by
    rw [hatan]
    field_simp
    ring
  have hfl : ⌊(90 : ℝ) / (-360)⌋ = -1 := by
    rw [Int.floor_eq_iff] <;> norm_num
  have hbaz : baz 1 0 = -90 := by
    unfold baz pymod
    rw [hazi, hfl]
    norm_num
  refine ⟨by norm_num, hbaz, ?_⟩
  rw [hbaz]
  norm_num

/-- C1 (amended): for every grid point the reported backazimuth
`((180·atan2(sx,sy)/π) mod -360) + 180` lies in `(-180, 180]` degrees. -/
theorem baz_mem_Ioc (slow_x slow_y : ℝ) (h : ¬(slow_x = 0 ∧ slow_y = 0)) :
    -180 < baz slow_x slow_y ∧ baz slow_x slow_y ≤ 180 := by
  have hb := pymod_bounds_of_neg (180 * atan2 slow_x slow_y / Real.pi) (-360)
    (by norm_num)
  unfold baz
  constructor <;> linarith [hb.1, hb.2]

/-- C1 witness: the amended range theorem applied at `(slow_x, slow_y) = (1, 0)`. -/
theorem baz_mem_Ioc_witness :
    ¬((1 : ℝ) = 0 ∧ (0 : ℝ) = 0) ∧ (-180 < baz 1 0 ∧ baz 1 0 ≤ 180) :=
  ⟨by norm_num, baz_mem_Ioc 1 0 (by norm_num)⟩

theorem tableUsed_of_ne_swp (method : String) (hm : (method = "SWP") = False)
    (tbl : ℕ → ℕ → ℕ → ℝ) (w i k l : ℕ) :
    tableUsed method tbl w i k l = tbl i k l := by
  induction w with
  | zero => simp [tableUsed, hm]
  | succ n ih => simp [tableUsed, hm, ih]

theorem tableUsed_swp_pow (tbl : ℕ → ℕ → ℕ → ℝ) (w i k l : ℕ) :
    tableUsed "SWP" tbl w i k l = (-1) ^ (w + 1) * tbl i k l := by
  induction w with
  | zero => simp [tableUsed]
  | succ n ih =>
    simp [tableUsed, ih]
    ring

/-- C2 (counterexample): for method `SWP` with the one-station geometry
`[(1, 0, 0)]` and grid origin `sll_x = 1`, the table value seen while the
first window is processed is `-1`, not the built value `1`: `beamforming`
mutates the table in place (`time_shift_table *= -1.`, line 2234, inside the
sliding-window loop). -/
theorem tableUsed_swp_counterexample :
    get_timeshift [(1, 0, 0)] 1 0 1 4 false 0 0 0 = 1 ∧
      tableUsed "SWP" (get_timeshift [(1, 0, 0)] 1 0 1 4 false) 0 0 0 0 = -1 := by
  have h : get_timeshift [(1, 0, 0)] 1 0 1 4 false 0 0 0 = 1 := by
    simp [get_timeshift]
  refine ⟨h, ?_⟩
  rw [tableUsed_swp_pow, h]
  norm_num

/-- C2 (amended): during one `beamforming` invocation the time-shift table
built by `get_timeshift` is never mutated for methods `DLS` and `PWS`; for
method `SWP` the in-place `time_shift_table *= -1.` of every loop iteration
makes the table seen at window `w` equal `(-1)^(w+1)` times its built value. -/
theorem beamforming_table_mutation (geometry : List (ℝ × ℝ × ℝ))
    (sll_x sll_y sl_s vel_cor : ℝ) (static_3D : Bool) (w i k l : ℕ) :
    tableUsed "DLS" (get_timeshift geometry sll_x sll_y sl_s vel_cor static_3D)
        w i k l =
      get_timeshift geometry sll_x sll_y sl_s vel_cor static_3D i k l ∧
    tableUsed "PWS" (get_timeshift geometry sll_x sll_y sl_s vel_cor static_3D)
        w i k l =
      get_timeshift geometry sll_x sll_y sl_s vel_cor static_3D i k l ∧
    tableUsed "SWP" (get_timeshift geometry sll_x sll_y sl_s vel_cor static_3D)
        w i k l =
      (-1) ^ (w + 1) *
        get_timeshift geometry sll_x sll_y sl_s vel_cor static_3D i k l :=
  ⟨tableUsed_of_ne_swp "DLS" (by simp) _ w i k l,
   tableUsed_of_ne_swp "PWS" (by simp) _ w i k l,
   tableUsed_swp_pow _ w i k l⟩

/-- C3 (counterexample): a one-sample trace sliced for a 3-sample window is
padded to `[5, 1, 1]`, not `[5, 0, 0]` — `np.pad` with
`constant_values=(0, 1)` appends ones, not zeros. -/
theorem extract_padded_counterexample :
    ((([5] : List ℝ).drop 0).take 3).length < 3 ∧
      extract_padded [5] 0 3 = [5, 1, 1] ∧
      extract_padded [5] 0 3 ≠ [5, 0, 0] := by
  have h : extract_padded [5] 0 3 = [5, 1, 1] := by
    simp [extract_padded, List.replicate]
  refine ⟨by simp, h, ?_⟩
  rw [h]
  simp

/-- C3 (amended): in the DLS and PWS branches of `beamforming`, whenever a
station's shifted window extracts fewer than `nsamp` samples, the extracted
segment is padded at its end with ones up to length `nsamp` before being
accumulated into the beam and singlet energy. -/
theorem extract_padded_short (data : List ℝ) (s nsamp : ℕ)
    (h : ((data.drop s).take nsamp).length < nsamp) :
    extract_padded data s nsamp =
      (data.drop s).take nsamp ++
        List.replicate (nsamp - ((data.drop s).take nsamp).length) 1 ∧
      (extract_padded data s nsamp).length = nsamp := by
  unfold extract_padded
  rw [if_pos h]
  refine ⟨rfl, ?_⟩
  simp only [List.length_append, List.length_replicate]
  omega

/-- C3 witness: the padding theorem applied to the one-sample trace `[5]`
with `nsamp = 3`. -/
theorem extract_padded_short_witness :
    ((([5] : List ℝ).drop 0).take 3).length < 3 ∧
      (extract_padded [5] 0 3 =
        (([5] : List ℝ).drop 0).take 3 ++
          List.replicate (3 - ((([5] : List ℝ).drop 0).take 3).length) 1 ∧
        (extract_padded [5] 0 3).length = 3) :=
  ⟨by simp, extract_padded_short [5] 0 3 (by simp)⟩

/-- C7: `array_rotation_strain` raises for subarrays of fewer than 3 stations,
warns but proceeds for exactly 3, and proceeds without the station-count
warning for 4 or more. -/
theorem subarray_station_check_spec (n : ℕ) :
    (n < 3 → subarray_station_check n =
      .error "The problem is underdetermined for fewer than 3 stations") ∧
    (n = 3 → subarray_station_check n =
      .ok ["For a 3-station array the problem is even-determined"]) ∧
    (4 ≤ n → subarray_station_check n = .ok []) := by
  refine ⟨fun h => ?_, fun h => ?_, fun h => ?_⟩
  · simp [subarray_station_check, h]
  · simp [subarray_station_check, h]
  · unfold subarray_station_check
    rw [if_neg (by omega), if_neg (by omega)]

/-- C7 witness: the station-count theorem applied at 2, 3 and 4 stations. -/
theorem subarray_station_check_spec_witness :
    (2 < 3 ∧ subarray_station_check 2 =
      .error "The problem is underdetermined for fewer than 3 stations") ∧
    subarray_station_check 3 =
      .ok ["For a 3-station array the problem is even-determined"] ∧
    (4 ≤ 4 ∧ subarray_station_check 4 = .ok []) :=
  ⟨⟨by norm_num, (subarray_station_check_spec 2).1 (by norm_num)⟩,
   (subarray_station_check_spec 3).2.1 rfl,
   ⟨by norm_num, (subarray_station_check_spec 4).2.2 (by norm_num)⟩⟩

/-- C4: for every valid slowness grid specification (`sll < slm`, `0 < sl_s`)
the per-axis grid point count `int(((slm - sll)/sl_s + 0.5) + 1)` computed by
`array_processing` and `beamforming` equals `⌊(slm - sll)/sl_s + 0.5⌋ + 1`. -/
theorem grdpts_eq_floor (sll slm sl_s : ℝ) (h1 : sll < slm) (h2 : 0 < sl_s) :
    grdpts sll slm sl_s = ⌊(slm - sll) / sl_s + 0.5⌋ + 1 := by
  have hx : 0 < (slm - sll) / sl_s := div_pos (by linarith) h2
  unfold grdpts pyint
  rw [if_pos (by linarith)]
  exact Int.floor_add_one ((slm - sll) / sl_s + 0.5)

/-- C4 witness: the grid-count theorem applied at `sll = 0`, `slm = 1`,
`sl_s = 1`, where both sides evaluate to `2`. -/
theorem grdpts_eq_floor_witness :
    ((0 : ℝ) < 1 ∧ (0 : ℝ) < 1) ∧
      grdpts 0 1 1 = ⌊((1 : ℝ) - 0) / 1 + 0.5⌋ + 1 :=
  ⟨⟨by norm_num, by norm_num⟩, grdpts_eq_floor 0 1 1 (by norm_num) (by norm_num)⟩

theorem sampling_rates_equal_eq_false (rates : List ℚ) (r1 r2 : ℚ)
    (h1 : r1 ∈ rates) (h2 : r2 ∈ rates) (hne : r1 ≠ r2) :
    sampling_rates_equal rates = false := by
  have hx : (rates.filter (fun r => r = rates.headD 0)).length < rates.length := by
    apply List.length_filter_lt_length_iff_exists.mpr
    by_cases hr1 : r1 = rates.headD 0
    · refine ⟨r2, h2, ?_⟩
      simp only [decide_eq_true_eq]
      intro hr2
      exact hne (hr1.trans hr2.symm)
    · exact ⟨r1, h1, by simpa using hr1⟩
  simp only [sampling_rates_equal, decide_eq_false_iff_not]
  omega

/-- C5: a stream containing two traces with unequal sampling rates makes both
`array_processing` and `beamforming` raise the configuration error, whatever
the grid, thresholds, timestamp convention and window outputs are — no
geometry, steering-table or window computation contributes to the outcome. -/
theorem unequal_rates_error (rates : List ℚ) (r1 r2 : ℚ)
    (h1 : r1 ∈ rates) (h2 : r2 ∈ rates) (hne : r1 ≠ r2)
    (sll_x sll_y sl_s semb_thres vel_thres : ℝ) (timestamp : String)
    (ws : List WindowOut) (ws2 : List BFWindowOut) :
    array_processing rates sll_x sll_y sl_s semb_thres vel_thres timestamp ws =
      .error "in array-processing sampling rates of traces in stream are not equal" ∧
    beamforming rates sll_x sll_y sl_s timestamp ws2 =
      .error "in sonic sampling rates of traces in stream are not equal" := by
  have hc := sampling_rates_equal_eq_false rates r1 r2 h1 h2 hne
  constructor
  · simp [array_processing, hc]
  · simp [beamforming, hc]

/-- C5 witness: the unequal-rate theorem applied to the two-trace stream with
sampling rates 100 Hz and 50 Hz. -/
theorem unequal_rates_error_witness :
    ((100 : ℚ) ∈ [(100 : ℚ), 50] ∧ (50 : ℚ) ∈ [(100 : ℚ), 50] ∧
      (100 : ℚ) ≠ 50) ∧
    array_processing [100, 50] 0 0 0 0 0 "mlabday" [] =
      .error "in array-processing sampling rates of traces in stream are not equal" ∧
    beamforming [100, 50] 0 0 0 "mlabday" [] =
      .error "in sonic sampling rates of traces in stream are not equal" :=
  ⟨⟨by simp, by simp, by norm_num⟩,
   unequal_rates_error [100, 50] 100 50 (by simp) (by simp) (by norm_num)
     0 0 0 0 0 "mlabday" [] []⟩

/-- C6: a window's result row is in the table built by `array_processing` if
and only if the window's maximal relative power strictly exceeds `semb_thres`
and the apparent velocity `1/slow` (slowness floored at `1e-8`) strictly
exceeds `vel_thres`; a failing window contributes no row and no error, and
the remaining windows are still processed. -/
theorem res_table_mem_iff (sll_x sll_y sl_s semb_thres vel_thres : ℝ)
    (ws : List WindowOut) (r : FKRecord) :
    r ∈ res_table sll_x sll_y sl_s semb_thres vel_thres ws ↔
      ∃ w, w ∈ ws ∧
        (w.relpow > semb_thres ∧
          1 / slow_floor (sll_x + w.ix * sl_s) (sll_y + w.iy * sl_s) >
            vel_thres) ∧
        r = window_record sll_x sll_y sl_s w := by
  induction ws with
  | nil => simp [res_table]
  | cons w ws ih =>
    simp only [res_table]
    by_cases hp : window_pass sll_x sll_y sl_s semb_thres vel_thres w
    · rw [if_pos hp]
      simp only [List.mem_cons, ih]
      constructor
      · rintro (rfl | ⟨w', hw', hcond, rfl⟩)
        · exact ⟨w, Or.inl rfl, hp, rfl⟩
        · exact ⟨w', Or.inr hw', hcond, rfl⟩
      · rintro ⟨w', hw', hcond, rfl⟩
        rcases hw' with rfl | hw'
        · exact Or.inl rfl
        · exact Or.inr ⟨w', hw', hcond, rfl⟩
    · rw [if_neg hp]
      rw [ih]
      constructor
      · rintro ⟨w', hw', hcond, rfl⟩
        exact ⟨w', List.mem_cons_of_mem w hw', hcond, rfl⟩
      · rintro ⟨w', hw', hcond, rfl⟩
        rcases List.mem_cons.mp hw' with rfl | hw'
        · exact absurd hcond hp
        · exact ⟨w', hw', hcond, rfl⟩

/-- C8: on a non-empty result table, `timestamp=mlabday` maps each row's
timestamp `t` to `t / 86400 + 719162` and leaves all other columns unchanged,
`timestamp=julsec` leaves every row as raw seconds-since-epoch, and any other
timestamp value raises `ValueError` — in both `array_processing` and
`beamforming`. -/
theorem timestamp_modes (rates : List ℚ)
    (hr : sampling_rates_equal rates = true)
    (sll_x sll_y sl_s semb_thres vel_thres : ℝ) (ws : List WindowOut)
    (hws : res_table sll_x sll_y sl_s semb_thres vel_thres ws ≠ [])
    (ws2 : List BFWindowOut) (hws2 : ws2 ≠ [])
    (ts : String) (hts1 : ts ≠ "julsec") (hts2 : ts ≠ "mlabday") :
    array_processing rates sll_x sll_y sl_s semb_thres vel_thres "mlabday" ws =
      .ok ((res_table sll_x sll_y sl_s semb_thres vel_thres ws).map
        (fun r => { r with timestamp := r.timestamp / (24 * 3600) + 719162 })) ∧
    array_processing rates sll_x sll_y sl_s semb_thres vel_thres "julsec" ws =
      .ok (res_table sll_x sll_y sl_s semb_thres vel_thres ws) ∧
    array_processing rates sll_x sll_y sl_s semb_thres vel_thres ts ws =
      .error "Option timestamp must be one of julsec or mlabday" ∧
    beamforming rates sll_x sll_y sl_s "mlabday" ws2 =
      .ok ((ws2.map (bf_window_record sll_x sll_y sl_s)).map
        (fun r => { r with timestamp := r.timestamp / (24 * 3600) + 719162 })) ∧
    beamforming rates sll_x sll_y sl_s "julsec" ws2 =
      .ok (ws2.map (bf_window_record sll_x sll_y sl_s)) ∧
    beamforming rates sll_x sll_y sl_s ts ws2 =
      .error "Option timestamp must be one of julsec or mlabday" := by
  have hemp : (res_table sll_x sll_y sl_s semb_thres vel_thres ws).isEmpty =
      false := by
    simpa [List.isEmpty_iff] using hws
  have hemp2 : (ws2.map (bf_window_record sll_x sll_y sl_s)).isEmpty =
      false := by
    simpa [List.isEmpty_iff] using hws2
  refine ⟨?_, ?_, ?_, ?_, ?_, ?_⟩
  · simp [array_processing, timestamp_convert, hr, hemp]
  · simp [array_processing, timestamp_convert, hr]
  · simp [array_processing, timestamp_convert, hr, hts1, hts2]
  · simp [beamforming, timestamp_convert, hr, hemp2]
  · simp [beamforming, timestamp_convert, hr]
  · simp [beamforming, timestamp_convert, hr, hts1, hts2]

/-- C8 witness: the timestamp theorem applied to the one-trace stream at
100 Hz, a single passing window, and the unsupported timestamp value `x`. -/
theorem timestamp_modes_witness :
    (sampling_rates_equal [100] = true ∧
      res_table 0 0 0 0 0 [⟨0, 1, 0, 0, 0⟩] ≠ [] ∧
      ([⟨0, 0, 0, 0⟩] : List BFWindowOut) ≠ [] ∧
      ("x" : String) ≠ "julsec" ∧ ("x" : String) ≠ "mlabday") ∧
    (array_processing [100] 0 0 0 0 0 "mlabday" [⟨0, 1, 0, 0, 0⟩] =
      .ok ((res_table 0 0 0 0 0 [⟨0, 1, 0, 0, 0⟩]).map
        (fun r => { r with timestamp := r.timestamp / (24 * 3600) + 719162 })) ∧
    array_processing [100] 0 0 0 0 0 "julsec" [⟨0, 1, 0, 0, 0⟩] =
      .ok (res_table 0 0 0 0 0 [⟨0, 1, 0, 0, 0⟩]) ∧
    array_processing [100] 0 0 0 0 0 "x" [⟨0, 1, 0, 0, 0⟩] =
      .error "Option timestamp must be one of julsec or mlabday" ∧
    beamforming [100] 0 0 0 "mlabday" [⟨0, 0, 0, 0⟩] =
      .ok (([⟨0, 0, 0, 0⟩] : List BFWindowOut).map (bf_window_record 0 0 0) |>.map
        (fun r => { r with timestamp := r.timestamp / (24 * 3600) + 719162 })) ∧
    beamforming [100] 0 0 0 "julsec" [⟨0, 0, 0, 0⟩] =
      .ok (([⟨0, 0, 0, 0⟩] : List BFWindowOut).map (bf_window_record 0 0 0)) ∧
    beamforming [100] 0 0 0 "x" [⟨0, 0, 0, 0⟩] =
      .error "Option timestamp must be one of julsec or mlabday") := by
  have hpass : window_pass 0 0 0 0 0 ⟨0, 1, 0, 0, 0⟩ := by
    constructor
    · norm_num
    · norm_num [slow_floor, Real.sqrt_zero]
  have hres_ne : res_table 0 0 0 0 0 [⟨0, 1, 0, 0, 0⟩] ≠ [] := by
    simp [res_table, hpass]
  refine ⟨⟨by decide, hres_ne, by simp, by decide, by decide⟩, ?_⟩
  exact timestamp_modes [100] (by decide) 0 0 0 0 0 [⟨0, 1, 0, 0, 0⟩] hres_ne
    [⟨0, 0, 0, 0⟩] (by simp) "x" (by decide) (by decide)

theorem res_table_eq_nil (sll_x sll_y sl_s semb_thres vel_thres : ℝ)
    (ws : List WindowOut)
    (hfail : ∀ w ∈ ws, ¬window_pass sll_x sll_y sl_s semb_thres vel_thres w) :
    res_table sll_x sll_y sl_s semb_thres vel_thres ws = [] := by
  induction ws with
  | nil => rfl
  | cons w ws ih =>
    simp only [res_table]
    rw [if_neg (hfail w (List.mem_cons_self w ws))]
    exact ih (fun x hx => hfail x (List.mem_cons_of_mem w hx))

/-- C10: when no window passes both threshold tests, `array_processing` with
`timestamp=mlabday` raises — `res[:, 0]` on the empty, one-dimensional
`np.array(res)` is an `IndexError` — while the same call with
`timestamp=julsec` returns the empty table. -/
theorem empty_table_mlabday (rates : List ℚ)
    (hr : sampling_rates_equal rates = true)
    (sll_x sll_y sl_s semb_thres vel_thres : ℝ) (ws : List WindowOut)
    (hfail : ∀ w ∈ ws, ¬window_pass sll_x sll_y sl_s semb_thres vel_thres w) :
    array_processing rates sll_x sll_y sl_s semb_thres vel_thres "mlabday" ws =
      .error "IndexError: too many indices for array" ∧
    array_processing rates sll_x sll_y sl_s semb_thres vel_thres "julsec" ws =
      .ok [] := by
  have h0 := res_table_eq_nil sll_x sll_y sl_s semb_thres vel_thres ws hfail
  constructor
  · simp [array_processing, timestamp_convert, hr, h0]
  · simp [array_processing, timestamp_convert, hr, h0]

/-- C10 witness: the empty-table theorem applied to a single window whose
relative power 0 fails the threshold `semb_thres = 1`. -/
theorem empty_table_mlabday_witness :
    (sampling_rates_equal [100] = true ∧
      (∀ w ∈ ([⟨0, 0, 0, 0, 0⟩] : List WindowOut), ¬window_pass 0 0 0 1 0 w)) ∧
    array_processing [100] 0 0 0 1 0 "mlabday" [⟨0, 0, 0, 0, 0⟩] =
      .error "IndexError: too many indices for array" ∧
    array_processing [100] 0 0 0 1 0 "julsec" [⟨0, 0, 0, 0, 0⟩] = .ok [] := by
  have hfail : ∀ w ∈ ([⟨0, 0, 0, 0, 0⟩] : List WindowOut),
      ¬window_pass 0 0 0 1 0 w := by
    intro w hw
    rcases List.mem_singleton.mp hw with rfl
    intro hpp
    exact absurd hpp.1 (by norm_num : ¬((0 : ℝ) > 1))
  exact ⟨⟨by decide, hfail⟩,
    empty_table_mlabday [100] (by decide) 0 0 0 1 0 [⟨0, 0, 0, 0, 0⟩] hfail⟩

theorem flatten_map_map {α β : Type} (f : α → β) (xss : List (List α)) :
    (xss.map (List.map f)).flatten = xss.flatten.map f := by
  induction xss with
  | nil => rfl
  | cons xs xss ih =>
    simp only [List.map_cons, List.flatten_cons, List.map_append, ih]

theorem foldl_max_div (m : ℝ) (hm : 0 < m) (xs : List ℝ) :
    ∀ x : ℝ, (xs.map fun v => v / m).foldl max (x / m) = xs.foldl max x / m := by
  induction xs with
  | nil => intro x; rfl
  | cons a as ih =>
    intro x
    simp only [List.map_cons, List.foldl_cons]
    rw [max_div_div_right (le_of_lt hm)]
    exact ih (max x a)

theorem np_max_map_div (xss : List (List ℝ)) (m : ℝ) (hm : 0 < m) :
    np_max (xss.map (List.map fun v => v / m)) = np_max xss / m := by
  unfold np_max
  rw [flatten_map_map]
  cases h : xss.flatten with
  | nil => simp
  | cons x xs =>
    simp only [List.map_cons, List.tail_cons, List.headD_cons]
    exact foldl_max_div m hm xs x

/-- C9: whenever the accumulated (unnormalized) transfer-function array has a
positive maximum, the arrays returned by `array_transff_wavenumber` and
`array_transff_freqslowness` — each divided by its own maximum — have maximum
value exactly 1. -/
theorem transff_max_eq_one (coords coords2 : List (ℝ × ℝ × ℝ))
    (kxmin kxmax kymin kymax kstep : ℝ)
    (sxmin sxmax symin symax sstep fmin fmax fstep : ℝ)
    (h1 : 0 < np_max (transff_wavenumber_raw coords kxmin kxmax kymin kymax kstep))
    (h2 : 0 < np_max (transff_freqslowness_raw coords2
      sxmin sxmax symin symax sstep fmin fmax fstep)) :
    np_max (array_transff_wavenumber coords kxmin kxmax kymin kymax kstep) = 1 ∧
    np_max (array_transff_freqslowness coords2
      sxmin sxmax symin symax sstep fmin fmax fstep) = 1 := by
  constructor
  · unfold array_transff_wavenumber
    rw [np_max_map_div _ _ h1, div_self (ne_of_gt h1)]
  · unfold array_transff_freqslowness
    rw [np_max_map_div _ _ h2, div_self (ne_of_gt h2)]

/-- C9 witness: the normalization theorem applied to a single station, a
one-point wavenumber grid, a one-point slowness grid and a two-point
frequency grid, where both unnormalized arrays evaluate to `[[1]]`. -/
theorem transff_max_eq_one_witness :
    (0 < np_max (transff_wavenumber_raw [(0, 0, 0)] 0 0 0 0 1) ∧
      0 < np_max (transff_freqslowness_raw [(0, 0, 0)] 0 0 0 0 1 0 1 1)) ∧
    np_max (array_transff_wavenumber [(0, 0, 0)] 0 0 0 0 1) = 1 ∧
    np_max (array_transff_freqslowness [(0, 0, 0)] 0 0 0 0 1 0 1 1) = 1 := by
  have hgeo : get_geometry_xy [((0 : ℝ), (0 : ℝ), (0 : ℝ))] = [(0, 0, 0)] := by
    simp [get_geometry_xy]
  have hc1 : (Int.ceil (((0 : ℝ) + 1 / 10 - 0) / 1)).toNat = 1 := by
    have : Int.ceil (((0 : ℝ) + 1 / 10 - 0) / 1) = 1 := by
      rw [Int.ceil_eq_iff] <;> norm_num
    rw [this]
    rfl
  have hc2 : (Int.ceil (((1 : ℝ) + 1 / 10 - 0) / 1)).toNat = 2 := by
    have : Int.ceil (((1 : ℝ) + 1 / 10 - 0) / 1) = 2 := by
      rw [Int.ceil_eq_iff] <;> norm_num
    rw [this]
    rfl
  have har1 : np_arange 0 (0 + 1 / 10) 1 = [0] := by
    unfold np_arange
    rw [hc1]
    norm_num [List.range_succ]
  have har2 : np_arange 0 (1 + 1 / 10) 1 = [0, 1] := by
    unfold np_arange
    rw [hc2]
    norm_num [List.range_succ]
  have hent1 : transff_k_entry [((0 : ℝ), (0 : ℝ), (0 : ℝ))] 0 0 = 1 := by
    simp [transff_k_entry]
  have hent2 : transff_fs_entry [((0 : ℝ), (0 : ℝ), (0 : ℝ))] 0 0 0 1 1 = 1 := by
    unfold transff_fs_entry
    rw [har2]
    simp [cumtrapz_last]
  have hraw1 : transff_wavenumber_raw [(0, 0, 0)] 0 0 0 0 1 = [[1]] := by
    unfold transff_wavenumber_raw
    rw [hgeo, har1]
    simp only [List.map_cons, List.map_nil]
    rw [hent1]
  have hraw2 : transff_freqslowness_raw [(0, 0, 0)] 0 0 0 0 1 0 1 1 = [[1]] := by
    unfold transff_freqslowness_raw
    rw [hgeo, har1]
    simp only [List.map_cons, List.map_nil]
    rw [hent2]
  have h1 : 0 < np_max (transff_wavenumber_raw [(0, 0, 0)] 0 0 0 0 1) := by
    rw [hraw1]
    norm_num [np_max]
  have h2 : 0 < np_max (transff_freqslowness_raw [(0, 0, 0)] 0 0 0 0 1 0 1 1) := by
    rw [hraw2]
    norm_num [np_max]
  exact ⟨⟨h1, h2⟩, transff_max_eq_one [(0, 0, 0)] [(0, 0, 0)]
    0 0 0 0 1 0 0 0 0 1 0 1 1 h1 h2⟩

end ObspyArray
